import Mathlib

/-!
Verification of the krew plugin installation engine (pkg/installation/install.go).

The Go code is shallowly embedded: every mutating OS call is recorded as an
Effect in a trace, and the outcome of each external call (receipt store,
download pipeline, filesystem syscalls) is supplied by an Env oracle, so the
embedded functions are pure and executable. Code of the repository that is not
part of the provided source (the platform matcher, pathutil.IsSubPath, the
environment.Paths provider) is modelled from the specification and marked as
such in its doc comment. Logging calls (glog) have no observable effect and
are not represented.
-/

namespace Krew

/-- Go error values. none models a nil error; wrapped models
errors.Wrap / errors.Wrapf with a non-nil cause; errNew models errors.New and
errors.Errorf; osNotExist models an OS error satisfying os.IsNotExist;
osOther models any other OS error. -/
inductive KError where
  | errNew (msg : String)
  | wrapped (msg : String) (err : KError)
  | osNotExist
  | osOther (msg : String)
deriving DecidableEq, Repr

/-- os.IsNotExist on a non-nil error. -/
def isNotExist : KError → Bool
  | KError.osNotExist => true
  | _ => false

/-- errors.Wrap / errors.Wrapf from the pkg/errors library: wrapping a nil
error returns nil, otherwise the error is annotated with the message. -/
def wrapO (err : Option KError) (msg : String) : Option KError :=
  match err with
  | none => none
  | some e => some (KError.wrapped msg e)

/-- Result of an os.Lstat call, as far as removeLink inspects it:
the path does not exist, lstat failed with another error, or an entry exists
and either is or is not a symlink (fi.Mode() and os.ModeSymlink). -/
inductive LstatResult where
  | notExist
  | lerr (e : KError)
  | entry (isSymlink : Bool)
deriving DecidableEq, Repr

/-- index.FileOperation: one declarative move rule, a source glob and a
destination relative to the install root. -/
structure FileOperation where
  From : String
  To : String
deriving DecidableEq, Repr

/-- index.Platform. Files is an Option to mirror the Go slice: none is a nil
slice (field absent in the manifest), some [] is a present but empty list;
applyDefaults distinguishes the two. The label selector is represented by the
match predicate it denotes on an (os, arch) pair, which is all the
spec-modelled platform matcher consumes. -/
structure Platform where
  URI : String
  Sha256 : String
  Selector : String → String → Bool
  Files : Option (List FileOperation)
  Bin : String

/-- index.PluginSpec (the fields installation reads). -/
structure PluginSpec where
  Version : String
  Platforms : List Platform

/-- index.Plugin. -/
structure Plugin where
  Name : String
  Spec : PluginSpec

/-- InstallOpts from install.go. -/
structure InstallOpts where
  ArchiveFileOverride : String

/-- installOperation from install.go. -/
structure installOperation where
  pluginName : String
  platform : Platform
  downloadStagingDir : String
  installDir : String
  binDir : String

/-- Modelled from the spec: environment.Paths (pkg/environment) is not under
src/. Spec section 6: the paths provider "supplies, per plugin name/version,
the staging download root, the shared bin directory, the versioned install
directory, and the per-plugin receipt path. The core treats these as opaque
absolute paths; it owns no path-construction policy itself." -/
structure Paths where
  DownloadPath : String
  BinPath : String
  BasePath : String
  PluginVersionInstallPath : String → String → String
  PluginInstallPath : String → String
  PluginInstallReceiptPath : String → String

/-- One mutating operation invoked by the code, recorded in order of
invocation: os.MkdirAll, os.RemoveAll, the download-verify-extract pipeline,
the moveToInstallDir relocation (with the file operations it was given),
os.Remove, os.Symlink, and receipt.Store. -/
inductive Effect where
  | mkdirAll (path : String)
  | removeDirAll (path : String)
  | downloadExtract (extractDir uri sha256sum : String)
  | moveToInstallDir (srcDir dstDir : String) (fos : Option (List FileOperation))
  | removeFile (path : String)
  | symlink (target linkPath : String)
  | storeReceipt (plugin path : String)
deriving DecidableEq, Repr

/-- The environment oracle: the ambient OS identity read by the code and the
outcome of every external or OS call it makes, keyed by the path argument
where the code can call the primitive on several paths. -/
structure Env where
  goos : String
  krewOS : String
  arch : String
  cwd : String
  receiptLoadErr : String → Option KError
  getMatchingPlatformErr : Option KError
  mkdirAllErr : String → Option KError
  downloadGetErr : Option KError
  moveErr : Option KError
  absErr : String → Option KError
  lstat : String → LstatResult
  removeErr : String → Option KError
  removeAllErr : String → Option KError
  statErr : String → Option KError
  symlinkErr : Option KError
  storeErr : Option KError

/-! ### Go path arithmetic (path/filepath on the slash separator) -/

/-- Split a character stream into slash-separated segments. -/
def splitSegsAux : List Char → List Char → List String
  | cur, [] => [String.mk cur.reverse]
  | cur, c :: cs =>
      if c = '/' then String.mk cur.reverse :: splitSegsAux [] cs
      else splitSegsAux (c :: cur) cs

/-- The non-empty slash-separated segments of a path string. -/
def splitSegs (s : String) : List String :=
  (splitSegsAux [] s.data).filter (fun seg => seg ≠ "")

/-- Core of filepath.Clean on segment lists: drops dot segments, makes a
dotdot segment consume the preceding real segment, drops dotdot at the root
of an absolute path and keeps leading dotdots of a relative path. -/
def cleanSegsAux (abs : Bool) : List String → List String → List String
  | acc, [] => acc.reverse
  | acc, seg :: rest =>
      if seg = "." then cleanSegsAux abs acc rest
      else if seg = ".." then
        match acc with
        | [] => if abs then cleanSegsAux abs [] rest else cleanSegsAux abs [".."] rest
        | a :: as =>
            if a = ".." then cleanSegsAux abs (".." :: a :: as) rest
            else cleanSegsAux abs as rest
      else cleanSegsAux abs (seg :: acc) rest

/-- filepath.Clean on segment lists. -/
def cleanSegs (abs : Bool) (segs : List String) : List String :=
  cleanSegsAux abs [] segs

/-- Whether a path is absolute (starts with the separator). -/
def isAbsPath (s : String) : Bool :=
  match s.data with
  | [] => false
  | c :: _ => c = '/'

/-- Reassemble cleaned segments into a path string, as filepath.Clean does:
an emptied relative path becomes a single dot. -/
def joinCleaned (abs : Bool) (segs : List String) : String :=
  if abs then "/" ++ String.intercalate "/" segs
  else if segs.isEmpty then "." else String.intercalate "/" segs

/-- filepath.Clean. -/
def cleanPath (p : String) : String :=
  joinCleaned (isAbsPath p) (cleanSegs (isAbsPath p) (splitSegs p))

/-- filepath.Join on two elements: concatenate with the separator and Clean
(an absolute second element therefore cannot escape the first). -/
def filepathJoin2 (a b : String) : String :=
  if a = "" then (if b = "" then "" else cleanPath b) else cleanPath (a ++ "/" ++ b)

/-- filepath.Abs: Clean an absolute path, join a relative one onto the
working directory. The Env records Abs failures separately (absErr). -/
def filepathAbs (cwd p : String) : String :=
  if isAbsPath p then cleanPath p else filepathJoin2 cwd p

/-- filepath.FromSlash: the identity in this model, which works in the
slash-separator (POSIX) branch of the code throughout. -/
def fromSlash (s : String) : String := s

/-- Modelled from the spec: pathutil.IsSubPath (pkg/pathutil) is not under
src/. Spec section 4.4: the Path Safety Guard "checks the binary path is
equal to or nested under the install directory", returning the relative
remainder and a containment flag. -/
def IsSubPath (basePath subPath : String) : String × Bool :=
  let b := splitSegs (cleanPath basePath)
  let s := splitSegs (cleanPath subPath)
  if b.isPrefixOf s then (String.intercalate "/" (s.drop b.length), true)
  else ("", false)

/-! ### The pure helpers of install.go -/

/-- The reserved plugin name (const krewPluginName). -/
def krewPluginName : String := "krew"

/-- Sentinel: ErrIsAlreadyInstalled. -/
def ErrIsAlreadyInstalled : KError :=
  KError.errNew "can't install, the newest version is already installed"

/-- Sentinel: ErrIsNotInstalled. -/
def ErrIsNotInstalled : KError := KError.errNew "plugin is not installed"

/-- Sentinel: ErrIsAlreadyUpgraded. -/
def ErrIsAlreadyUpgraded : KError :=
  KError.errNew "can't upgrade, the newest version is already installed"

/-- strings.Replace(name, "-", "_", -1): for this single-character pattern,
a character map over the string. -/
def replaceDashes (s : String) : String :=
  String.mk (s.data.map (fun c => if c = '-' then '_' else c))

/-- pluginNameToBin from install.go: converts dashes to underscores, adds the
kubectl- namespace in front, and the .exe suffix on Windows. -/
def pluginNameToBin (name : String) (isWindows : Bool) : String :=
  let name1 := replaceDashes name
  let name2 := "kubectl-" ++ name1
  if isWindows then name2 ++ ".exe" else name2

/-- isWindows from install.go: runtime.GOOS, overridden by a non-empty
KREW_OS environment variable, compared against "windows". -/
def isWindows (env : Env) : Bool :=
  (if env.krewOS = "" then env.goos else env.krewOS) = "windows"

/-- applyDefaults from install.go: only a nil Files slice is replaced by the
single implicit copy-everything operation. -/
def applyDefaults (platform : Platform) : Platform :=
  if platform.Files.isNone then
    { platform with Files := some [{ From := "*", To := "." }] }
  else platform

/-! ### The effectful functions of install.go -/

/-- removeLink from install.go: os.Lstat the path; a missing path is a
successful no-op; any other lstat error is wrapped; an entry whose mode lacks
the symlink bit is an error and nothing is removed; a symlink is removed with
os.Remove (recorded in the trace), whose failure is wrapped. -/
def removeLink (env : Env) (path : String) : Option KError × List Effect :=
  match env.lstat path with
  | LstatResult.notExist => (none, [])
  | LstatResult.lerr e =>
      (some (KError.wrapped ("failed to read the symlink in " ++ path) e), [])
  | LstatResult.entry isSym =>
      if isSym = false then
        (some (KError.errNew ("file " ++ path ++ " is not a symlink")), [])
      else
        (wrapO (env.removeErr path) ("failed to remove the symlink in " ++ path),
         [Effect.removeFile path])

/-- createOrUpdateLink from install.go: compute the link path from the plugin
name, remove whatever symlink is there, require the target binary to exist
(os.Stat, only the IsNotExist outcome is acted upon), then os.Symlink. -/
def createOrUpdateLink (env : Env) (binDir binary plugin : String) :
    Option KError × List Effect :=
  let dst := filepathJoin2 binDir (pluginNameToBin plugin (isWindows env))
  let r := removeLink env dst
  match r.1 with
  | some e => (some (KError.wrapped "failed to remove old symlink" e), r.2)
  | none =>
      match env.statErr binary with
      | some e =>
          if isNotExist e then
            (some (KError.wrapped
              ("can't create symbolic link, source binary (" ++ binary ++
               ") cannot be found in extracted archive") e), r.2)
          else
            (wrapO env.symlinkErr
              ("failed to create a symlink form " ++ binDir ++ " to " ++ dst),
             r.2 ++ [Effect.symlink binary dst])
      | none =>
          (wrapO env.symlinkErr
            ("failed to create a symlink form " ++ binDir ++ " to " ++ dst),
           r.2 ++ [Effect.symlink binary dst])

/-- downloadAndExtract from install.go: the fetch-verify-extract pipeline run
against the staging directory (the override file only selects the fetcher);
its outcome is the downloadGetErr oracle, wrapped as in the source. -/
def downloadAndExtract (env : Env)
    (extractDir uri sha256sum overrideFile : String) :
    Option KError × List Effect :=
  (wrapO env.downloadGetErr "failed to download and verify file",
   [Effect.downloadExtract extractDir uri sha256sum])

/-- Lines 108-130 of install.go: the body of install that runs under the
deferred staging cleanup, after os.MkdirAll succeeded. In the containment
branch the Go variable err is nil (both filepath.Abs calls succeeded), so the
errors.Wrapf there returns nil: a failed containment check produces no error. -/
def installBody (env : Env) (op : installOperation) (opts : InstallOpts) :
    Option KError × List Effect :=
  let d := downloadAndExtract env op.downloadStagingDir op.platform.URI
    op.platform.Sha256 opts.ArchiveFileOverride
  match d.1 with
  | some e => (some (KError.wrapped "failed to download and extract" e), d.2)
  | none =>
    let platform2 := applyDefaults op.platform
    let mvEffect :=
      Effect.moveToInstallDir op.downloadStagingDir op.installDir platform2.Files
    match env.moveErr with
    | some e =>
        (some (KError.wrapped "failed while moving files to the installation directory" e),
         d.2 ++ [mvEffect])
    | none =>
      match env.absErr op.installDir with
      | some e =>
          (some (KError.wrapped
            ("failed to get the absolute fullPath of " ++ op.installDir) e),
           d.2 ++ [mvEffect])
      | none =>
        let subPathAbs := filepathAbs env.cwd op.installDir
        let fullPath := filepathJoin2 op.installDir (fromSlash platform2.Bin)
        match env.absErr fullPath with
        | some e =>
            (some (KError.wrapped
              ("failed to get the absolute fullPath of " ++ fullPath) e),
             d.2 ++ [mvEffect])
        | none =>
          let pathAbs := filepathAbs env.cwd fullPath
          if (IsSubPath subPathAbs pathAbs).2 = false then
            (wrapO none ("the fullPath " ++ fullPath ++
              " does not extend the sub-fullPath " ++ op.installDir),
             d.2 ++ [mvEffect])
          else
            let l := createOrUpdateLink env op.binDir fullPath op.pluginName
            (wrapO l.1 "failed to link installed plugin", d.2 ++ [mvEffect] ++ l.2)

/-- install (lower-case) from install.go: create the staging directory, and
from then on run the body with the deferred os.RemoveAll of the staging
directory appended on every exit path (its own failure is only logged). -/
def install (env : Env) (op : installOperation) (opts : InstallOpts) :
    Option KError × List Effect :=
  match env.mkdirAllErr op.downloadStagingDir with
  | some e =>
      (some (KError.wrapped
        ("could not create download path " ++ op.downloadStagingDir) e),
       [Effect.mkdirAll op.downloadStagingDir])
  | none =>
      let body := installBody env op opts
      (body.1,
       Effect.mkdirAll op.downloadStagingDir ::
         (body.2 ++ [Effect.removeDirAll op.downloadStagingDir]))

/-- The OS name the platform matcher sees: runtime.GOOS, overridden by a
non-empty KREW_OS. -/
def currentGoos (env : Env) : String :=
  if env.krewOS = "" then env.goos else env.krewOS

/-- Modelled from the spec: GetMatchingPlatform lives in this package but is
not under src/. Spec section 4.1: "Input: ordered list of platform entries,
current OS/architecture (overridable via an environment-style knob) ...
Output: the first entry whose selector matches, plus a boolean found-flag."
The found-flag is the Option; the error return of the Go signature is the
getMatchingPlatformErr oracle, handled by the caller. -/
def GetMatchingPlatform (env : Env) (platforms : List Platform) :
    Option Platform :=
  platforms.find? (fun pl => pl.Selector (currentGoos env) env.arch)

/-- Lines 69-94 of Install: platform matching, the inner install, then the
receipt store. In the no-candidate branch the Go variable err is nil (the
err != nil case returned just above), so the errors.Wrapf there returns nil:
an unmatched platform produces no error and no effects. -/
def InstallAfterReceiptCheck (env : Env) (p : Paths) (plugin : Plugin)
    (opts : InstallOpts) : Option KError × List Effect :=
  match env.getMatchingPlatformErr with
  | some e =>
      (some (KError.wrapped "failed trying to find a matching platform in plugin spec" e), [])
  | none =>
    match GetMatchingPlatform env plugin.Spec.Platforms with
    | none =>
        (wrapO none ("plugin " ++ plugin.Name ++
          " does not offer installation for this platform"), [])
    | some candidate =>
        let r := install env
          { pluginName := plugin.Name
            platform := candidate
            downloadStagingDir := filepathJoin2 p.DownloadPath plugin.Name
            binDir := p.BinPath
            installDir := p.PluginVersionInstallPath plugin.Name plugin.Spec.Version }
          opts
        match r.1 with
        | some e => (some (KError.wrapped "install failed" e), r.2)
        | none =>
            (wrapO env.storeErr
              "installation receipt could not be stored, uninstall may fail",
             r.2 ++ [Effect.storeReceipt plugin.Name
               (p.PluginInstallReceiptPath plugin.Name)])

/-- Install from install.go: load the existing receipt; a successful load is
ErrIsAlreadyInstalled, a load error other than not-found is wrapped, and only
the not-found outcome continues into the rest of the operation. -/
def Install (env : Env) (p : Paths) (plugin : Plugin) (opts : InstallOpts) :
    Option KError × List Effect :=
  match env.receiptLoadErr (p.PluginInstallReceiptPath plugin.Name) with
  | none => (some ErrIsAlreadyInstalled, [])
  | some e =>
      if isNotExist e then InstallAfterReceiptCheck env p plugin opts
      else (some (KError.wrapped "failed to look up plugin receipt" e), [])

/-- Uninstall from install.go: refuse the reserved name, require a readable
receipt, remove the published symlink, os.RemoveAll the plugin install
directory, and only then os.Remove the receipt. -/
def Uninstall (env : Env) (p : Paths) (name : String) :
    Option KError × List Effect :=
  if name = krewPluginName then
    (some (KError.errNew "self-uninstall not allowed"), [])
  else
    match env.receiptLoadErr (p.PluginInstallReceiptPath name) with
    | some e =>
        if isNotExist e then (some ErrIsNotInstalled, [])
        else
          (some (KError.wrapped
            ("failed to look up install receipt for plugin " ++ name) e), [])
    | none =>
        let symlinkPath := filepathJoin2 p.BinPath (pluginNameToBin name (isWindows env))
        let r := removeLink env symlinkPath
        match r.1 with
        | some e =>
            (some (KError.wrapped "could not uninstall symlink of plugin" e), r.2)
        | none =>
            let pluginInstallPath := p.PluginInstallPath name
            match env.removeAllErr pluginInstallPath with
            | some e =>
                (some (KError.wrapped
                  ("could not remove plugin directory " ++ pluginInstallPath) e),
                 r.2 ++ [Effect.removeDirAll pluginInstallPath])
            | none =>
                let pluginReceiptPath := p.PluginInstallReceiptPath name
                (wrapO (env.removeErr pluginReceiptPath)
                  ("could not remove plugin receipt " ++ pluginReceiptPath),
                 r.2 ++ [Effect.removeDirAll pluginInstallPath,
                         Effect.removeFile pluginReceiptPath])

/-! ### Effect classifiers and concrete fixtures -/

/-- Whether an effect is an os.Symlink invocation. -/
def isSymlinkEffect : Effect → Bool
  | Effect.symlink _ _ => true
  | _ => false

/-- Whether an effect is a receipt.Store invocation. -/
def isStoreReceiptEffect : Effect → Bool
  | Effect.storeReceipt _ _ => true
  | _ => false

/-- Default install options: no archive override. -/
def opts0 : InstallOpts := { ArchiveFileOverride := "" }

/-- A concrete paths provider with the usual krew layout. -/
def testPaths : Paths := {
  DownloadPath := "/krew/download"
  BinPath := "/krew/bin"
  BasePath := "/krew"
  PluginVersionInstallPath := fun name ver => "/krew/store/" ++ name ++ "/" ++ ver
  PluginInstallPath := fun name => "/krew/store/" ++ name
  PluginInstallReceiptPath := fun name => "/krew/receipts/" ++ name ++ ".yaml" }

/-- A Linux environment in which no receipt exists and every OS call
succeeds. -/
def envBase : Env := {
  goos := "linux", krewOS := "", arch := "amd64", cwd := "/home/user"
  receiptLoadErr := fun _ => some KError.osNotExist
  getMatchingPlatformErr := none
  mkdirAllErr := fun _ => none
  downloadGetErr := none
  moveErr := none
  absErr := fun _ => none
  lstat := fun _ => LstatResult.notExist
  removeErr := fun _ => none
  removeAllErr := fun _ => none
  statErr := fun _ => none
  symlinkErr := none
  storeErr := none }

/-- A platform entry whose bin escapes the install directory through dotdot
segments. -/
def platTrav : Platform := {
  URI := "https://example.com/foo.tar.gz", Sha256 := "abc"
  Selector := fun _ _ => true, Files := none, Bin := "../../evil" }

/-- The install operation Install builds for platTrav under testPaths. -/
def opTrav : installOperation := {
  pluginName := "foo", platform := platTrav
  downloadStagingDir := "/krew/download/foo"
  installDir := "/krew/store/foo/0.1.0"
  binDir := "/krew/bin" }

/-- The plugin manifest carrying platTrav. -/
def pluginTrav : Plugin :=
  { Name := "foo", Spec := { Version := "0.1.0", Platforms := [platTrav] } }

/-- A well-formed platform entry whose bin stays inside the install
directory. -/
def platOk : Platform := {
  URI := "https://example.com/foo.tar.gz", Sha256 := "abc"
  Selector := fun _ _ => true, Files := none, Bin := "foo" }

/-- The install operation for platOk. -/
def opOk : installOperation := {
  pluginName := "foo", platform := platOk
  downloadStagingDir := "/krew/download/foo"
  installDir := "/krew/store/foo/0.1.0"
  binDir := "/krew/bin" }

/-- A platform entry with an explicitly present but empty Files list. -/
def platEmptyFiles : Platform := {
  URI := "u", Sha256 := "s"
  Selector := fun _ _ => true, Files := some [], Bin := "b" }

/-- A plugin none of whose platform entries matches any host. -/
def pluginNoMatch : Plugin :=
  { Name := "foo"
    Spec := { Version := "0.1.0"
              Platforms := [{ URI := "u", Sha256 := "s"
                              Selector := fun _ _ => false
                              Files := none, Bin := "foo" }] } }

/-- envBase with a regular (non-symlink) file sitting at the computed link
path of plugin foo. -/
def env7 : Env := { envBase with
  lstat := fun pth =>
    if pth = "/krew/bin/kubectl-foo" then LstatResult.entry false
    else LstatResult.notExist }

/-- envBase with a readable receipt for every plugin and a proper symlink at
the link path of plugin foo. -/
def env8 : Env := { envBase with
  receiptLoadErr := fun _ => none
  lstat := fun pth =>
    if pth = "/krew/bin/kubectl-foo" then LstatResult.entry true
    else LstatResult.notExist }

/-- An environment in which every receipt loads successfully. -/
def env6a : Env := { envBase with receiptLoadErr := fun _ => none }

/-- An environment in which loading a receipt fails with an error that is not
a not-found condition. -/
def env6b : Env := { envBase with
  receiptLoadErr := fun _ => some (KError.osOther "permission denied") }

/-- An environment whose lstat results differ by path: a missing entry, a
failing lstat, a regular file, and a symlink. -/
def envC7 : Env := { envBase with
  lstat := fun pth =>
    if pth = "/gone" then LstatResult.notExist
    else if pth = "/cant" then LstatResult.lerr (KError.osOther "io")
    else if pth = "/regular" then LstatResult.entry false
    else LstatResult.entry true }

/-! ### Shared helper lemmas -/

/-- removeLink touches at most the symlink at its own argument path: its
trace is empty or the single removal of that path. -/
theorem removeLink_trace (env : Env) (path : String) :
    (removeLink env path).2 = [] ∨
    (removeLink env path).2 = [Effect.removeFile path] := by
  unfold removeLink
  cases env.lstat path with
  | notExist => exact Or.inl rfl
  | lerr e => exact Or.inl rfl
  | entry isSym =>
      cases isSym with
      | false => exact Or.inl rfl
      | true => exact Or.inr rfl

/-! ### The claims -/

/-- C1: the claim says a manifest whose bin resolves outside the versioned
install directory makes install fail with a path-traversal error and create
no symlink. On this code the second half holds but the first does not: with
bin = "../../evil" the containment check is indeed reached and fails, no
symlink is created, yet install returns a nil error, because the failing
branch wraps the nil err of the preceding successful filepath.Abs call and
wrapping nil yields nil. This theorem evaluates the embedded install at that
failing input: the result is no error, and the trace holds no symlink
creation. -/
theorem claim1_traversal_returns_no_error :
    install envBase opTrav opts0 =
      (none,
       [Effect.mkdirAll "/krew/download/foo",
        Effect.downloadExtract "/krew/download/foo"
          "https://example.com/foo.tar.gz" "abc",
        Effect.moveToInstallDir "/krew/download/foo" "/krew/store/foo/0.1.0"
          (some [{ From := "*", To := "." }]),
        Effect.removeDirAll "/krew/download/foo"])
    ∧ (install envBase opTrav opts0).2.any isSymlinkEffect = false := by
  constructor
  · decide
  · decide

/-- C2: the claim says a plugin with no matching platform entry makes Install
fail with an unsupported-platform error and perform no download, relocation,
symlink or receipt write. On this code the second half holds but Install
returns a nil error: the no-candidate branch wraps the matcher's err, which
is nil in that branch, and wrapping nil yields nil. This theorem evaluates
the embedded Install at such a plugin: the result is success with an empty
effect trace. -/
theorem claim2_unsupported_platform_returns_no_error :
    Install envBase testPaths pluginNoMatch opts0 = (none, []) := by
  decide

/-- C3 counterexample: the claim names the Windows link for plugin foo
kubectl_foo.exe, but pluginNameToBin replaces dashes before adding the
kubectl- namespace, so the Windows link is kubectl-foo.exe. -/
theorem claim3_counterexample :
    pluginNameToBin "foo" true = "kubectl-foo.exe" ∧
    pluginNameToBin "foo" true ≠ "kubectl_foo.exe" := by
  constructor
  · decide
  · decide

/-- C3 as amended: the link name is the plugin name with every dash replaced
by an underscore, prefixed with the kubectl- namespace token, plus the .exe
suffix on the Windows target; for plugin foo that is kubectl-foo on
non-Windows targets and kubectl-foo.exe on Windows. -/
theorem claim3_link_name (name : String) (w : Bool) :
    pluginNameToBin name w =
      (if w then ("kubectl-" ++ replaceDashes name) ++ ".exe"
       else "kubectl-" ++ replaceDashes name) ∧
    pluginNameToBin "foo" false = "kubectl-foo" ∧
    pluginNameToBin "foo" true = "kubectl-foo.exe" := by
  refine ⟨?_, by decide, by decide⟩
  cases w <;> rfl

/-- C4: once the staging directory has been created, the deferred cleanup
removes it on every exit path: whatever the outcome of the later steps (the
trace t of the body), the trace of install ends with the removal of the
staging directory. -/
theorem claim4_staging_cleanup (env : Env) (op : installOperation)
    (opts : InstallOpts) (h : env.mkdirAllErr op.downloadStagingDir = none) :
    ∃ t, (install env op opts).2 =
      Effect.mkdirAll op.downloadStagingDir ::
        (t ++ [Effect.removeDirAll op.downloadStagingDir]) := by
  refine ⟨(installBody env op opts).2, ?_⟩
  simp [install, h]

/-- Witness for C4 at a concrete environment and operation. -/
theorem claim4_witness :
    envBase.mkdirAllErr opTrav.downloadStagingDir = none ∧
    ∃ t, (install envBase opTrav opts0).2 =
      Effect.mkdirAll opTrav.downloadStagingDir ::
        (t ++ [Effect.removeDirAll opTrav.downloadStagingDir]) :=
  ⟨rfl, claim4_staging_cleanup envBase opTrav opts0 rfl⟩

/-- C5: the claim says the receipt is stored only after download, extraction,
relocation, path check and link publication all succeeded. On this code a
manifest whose bin fails the containment check makes the inner install return
a nil error (the failing branch wraps a nil err), so Install proceeds to
store the receipt even though the path check failed and no symlink was ever
created. This theorem evaluates Install at that input: the receipt store is
in the trace, no symlink is, and Install reports success. -/
theorem claim5_receipt_stored_despite_failed_path_check :
    Install envBase testPaths pluginTrav opts0 =
      (none,
       [Effect.mkdirAll "/krew/download/foo",
        Effect.downloadExtract "/krew/download/foo"
          "https://example.com/foo.tar.gz" "abc",
        Effect.moveToInstallDir "/krew/download/foo" "/krew/store/foo/0.1.0"
          (some [{ From := "*", To := "." }]),
        Effect.removeDirAll "/krew/download/foo",
        Effect.storeReceipt "foo" "/krew/receipts/foo.yaml"])
    ∧ (Install envBase testPaths pluginTrav opts0).2.any isSymlinkEffect = false
    ∧ (Install envBase testPaths pluginTrav opts0).2.any isStoreReceiptEffect = true := by
  refine ⟨by decide, by decide, by decide⟩

/-- C6: the receipt gate at the start of Install. A successful receipt load
fails the operation with ErrIsAlreadyInstalled and produces no effect; a load
error other than not-found fails it with a wrapped lookup error and no
effect; only the not-found outcome lets Install continue into the rest of the
operation. -/
theorem claim6_receipt_gate (env : Env) (p : Paths) (plugin : Plugin)
    (opts : InstallOpts) :
    (env.receiptLoadErr (p.PluginInstallReceiptPath plugin.Name) = none →
      Install env p plugin opts = (some ErrIsAlreadyInstalled, [])) ∧
    (∀ e, env.receiptLoadErr (p.PluginInstallReceiptPath plugin.Name) = some e →
      isNotExist e = false →
      Install env p plugin opts =
        (some (KError.wrapped "failed to look up plugin receipt" e), [])) ∧
    (∀ e, env.receiptLoadErr (p.PluginInstallReceiptPath plugin.Name) = some e →
      isNotExist e = true →
      Install env p plugin opts = InstallAfterReceiptCheck env p plugin opts) := by
  refine ⟨?_, ?_, ?_⟩
  · intro h; simp [Install, h]
  · intro e h hnex; simp [Install, h, hnex]
  · intro e h hnex; simp [Install, h, hnex]

/-- Witness for C6: the three receipt-load outcomes at concrete
environments. -/
theorem claim6_witness :
    Install env6a testPaths pluginNoMatch opts0 = (some ErrIsAlreadyInstalled, []) ∧
    Install env6b testPaths pluginNoMatch opts0 =
      (some (KError.wrapped "failed to look up plugin receipt"
        (KError.osOther "permission denied")), []) ∧
    Install envBase testPaths pluginNoMatch opts0 =
      InstallAfterReceiptCheck envBase testPaths pluginNoMatch opts0 :=
  ⟨(claim6_receipt_gate env6a testPaths pluginNoMatch opts0).1 rfl,
   (claim6_receipt_gate env6b testPaths pluginNoMatch opts0).2.1 _ rfl rfl,
   (claim6_receipt_gate envBase testPaths pluginNoMatch opts0).2.2 _ rfl rfl⟩

/-- C7: removeLink is a successful no-op when nothing exists at the path,
fails without removing anything when lstat errors or when the entry is not a
symlink, and invokes the removal exactly when the entry is a symlink. The
final conjunct is the claimed consequence for install: with a regular file at
the computed link path, install fails and its trace deletes nothing and
creates no symlink, leaving the foreign file intact. -/
theorem claim7_removeLink (env : Env) (path : String) :
    (env.lstat path = LstatResult.notExist → removeLink env path = (none, [])) ∧
    (∀ e, env.lstat path = LstatResult.lerr e →
      (removeLink env path).1.isSome = true ∧ (removeLink env path).2 = []) ∧
    (env.lstat path = LstatResult.entry false →
      (removeLink env path).1 =
        some (KError.errNew ("file " ++ path ++ " is not a symlink")) ∧
      (removeLink env path).2 = []) ∧
    (env.lstat path = LstatResult.entry true →
      (removeLink env path).2 = [Effect.removeFile path]) ∧
    ((install env7 opOk opts0).1.isSome = true ∧
      (install env7 opOk opts0).2 =
        [Effect.mkdirAll "/krew/download/foo",
         Effect.downloadExtract "/krew/download/foo"
           "https://example.com/foo.tar.gz" "abc",
         Effect.moveToInstallDir "/krew/download/foo" "/krew/store/foo/0.1.0"
           (some [{ From := "*", To := "." }]),
         Effect.removeDirAll "/krew/download/foo"]) := by
  refine ⟨?_, ?_, ?_, ?_, by decide, by decide⟩
  · intro h; simp [removeLink, h]
  · intro e h; simp [removeLink, h]
  · intro h; simp [removeLink, h]
  · intro h; simp [removeLink, h]

/-- Witness for C7: the four lstat outcomes at concrete paths of envC7. -/
theorem claim7_witness :
    removeLink envC7 "/gone" = (none, []) ∧
    (removeLink envC7 "/cant").2 = [] ∧
    (removeLink envC7 "/regular").1 =
      some (KError.errNew "file /regular is not a symlink") ∧
    (removeLink envC7 "/link").2 = [Effect.removeFile "/link"] :=
  ⟨(claim7_removeLink envC7 "/gone").1 rfl,
   ((claim7_removeLink envC7 "/cant").2.1 _ rfl).2,
   ((claim7_removeLink envC7 "/regular").2.2.1 rfl).1,
   (claim7_removeLink envC7 "/link").2.2.2.1 rfl⟩

/-- C8: for an installed plugin whose name is not the reserved one (and whose
receipt path differs from its link path), Uninstall removes the symlink
first, then the install directory, and deletes the receipt only after both
succeeded: a failed symlink removal aborts with neither the directory removal
nor the receipt deletion invoked; a failed directory removal aborts with the
receipt deletion not invoked; on the successful path the trace is exactly the
symlink removal, then the directory removal, then the receipt deletion. -/
theorem claim8_uninstall_order (env : Env) (p : Paths) (name : String)
    (hname : name ≠ krewPluginName)
    (hload : env.receiptLoadErr (p.PluginInstallReceiptPath name) = none)
    (hne : p.PluginInstallReceiptPath name ≠
      filepathJoin2 p.BinPath (pluginNameToBin name (isWindows env))) :
    ((removeLink env (filepathJoin2 p.BinPath (pluginNameToBin name (isWindows env)))).1.isSome = true →
      (Uninstall env p name).1.isSome = true ∧
      Effect.removeFile (p.PluginInstallReceiptPath name) ∉ (Uninstall env p name).2 ∧
      Effect.removeDirAll (p.PluginInstallPath name) ∉ (Uninstall env p name).2) ∧
    ((removeLink env (filepathJoin2 p.BinPath (pluginNameToBin name (isWindows env)))).1 = none →
      env.removeAllErr (p.PluginInstallPath name) ≠ none →
      (Uninstall env p name).1.isSome = true ∧
      Effect.removeFile (p.PluginInstallReceiptPath name) ∉ (Uninstall env p name).2) ∧
    ((removeLink env (filepathJoin2 p.BinPath (pluginNameToBin name (isWindows env)))).1 = none →
      env.removeAllErr (p.PluginInstallPath name) = none →
      (Uninstall env p name).2 =
        (removeLink env (filepathJoin2 p.BinPath (pluginNameToBin name (isWindows env)))).2 ++
          [Effect.removeDirAll (p.PluginInstallPath name),
           Effect.removeFile (p.PluginInstallReceiptPath name)]) := by
  have htr := removeLink_trace env
    (filepathJoin2 p.BinPath (pluginNameToBin name (isWindows env)))
  refine ⟨?_, ?_, ?_⟩
  · intro h1
    obtain ⟨e, he⟩ := Option.isSome_iff_exists.mp h1
    simp only [Uninstall, if_neg hname, hload, he]
    refine ⟨rfl, ?_, ?_⟩ <;>
      rcases htr with h | h <;> rw [h] <;> simp [hne]
  · intro h1 h2
    obtain ⟨e2, he2⟩ := Option.ne_none_iff_exists'.mp h2
    simp only [Uninstall, if_neg hname, hload, h1, he2]
    refine ⟨rfl, ?_⟩
    rcases htr with h | h <;> rw [h] <;> simp [hne]
  · intro h1 h2
    simp [Uninstall, if_neg hname, hload, h1, h2]

/-- Witness for C8: the successful uninstall of plugin foo in env8 performs
the symlink removal, the directory removal, and the receipt deletion in that
order. -/
theorem claim8_witness :
    (Uninstall env8 testPaths "foo").2 =
      (removeLink env8 (filepathJoin2 testPaths.BinPath
        (pluginNameToBin "foo" (isWindows env8)))).2 ++
        [Effect.removeDirAll (testPaths.PluginInstallPath "foo"),
         Effect.removeFile (testPaths.PluginInstallReceiptPath "foo")] :=
  (claim8_uninstall_order env8 testPaths "foo" (by decide) rfl (by decide)).2.2
    rfl rfl

/-- C9 counterexample: the claim says a present-but-empty files list also
receives the single implicit copy-everything operation, but applyDefaults
replaces only a nil list: an explicitly empty list stays empty. -/
theorem claim9_counterexample :
    (applyDefaults platEmptyFiles).Files = some [] ∧
    some ([] : List FileOperation) ≠ some [{ From := "*", To := "." }] := by
  constructor
  · rfl
  · decide

/-- C9 as amended: only a platform entry whose files list is absent (a nil
slice) receives the single implicit operation copying everything from the
archive root to the install root; a present files list, even an empty one, is
left unchanged. -/
theorem claim9_files_defaulting (pl : Platform) :
    (pl.Files = none →
      applyDefaults pl = { pl with Files := some [{ From := "*", To := "." }] }) ∧
    (∀ l, pl.Files = some l → applyDefaults pl = pl) := by
  constructor
  · intro h; simp [applyDefaults, h]
  · intro l h; simp [applyDefaults, h]

/-- Witness for C9: the absent list is defaulted, the empty list is kept. -/
theorem claim9_witness :
    platOk.Files = none ∧
    applyDefaults platOk = { platOk with Files := some [{ From := "*", To := "." }] } ∧
    platEmptyFiles.Files = some [] ∧
    applyDefaults platEmptyFiles = platEmptyFiles :=
  ⟨rfl, (claim9_files_defaulting platOk).1 rfl, rfl,
   (claim9_files_defaulting platEmptyFiles).2 [] rfl⟩

/-- C10: the plugin-name-to-executable-name mapping identifies every pair of
names that agree after dashes become underscores, so two such plugins compute
the same link file name and the same link path in the shared bin
directory. -/
theorem claim10_name_collision (n₁ n₂ : String) (w : Bool) (binDir : String)
    (hne : n₁ ≠ n₂) (hcol : replaceDashes n₁ = replaceDashes n₂) :
    pluginNameToBin n₁ w = pluginNameToBin n₂ w ∧
    filepathJoin2 binDir (pluginNameToBin n₁ w) =
      filepathJoin2 binDir (pluginNameToBin n₂ w) := by
  have h1 : pluginNameToBin n₁ w = pluginNameToBin n₂ w := by
    simp [pluginNameToBin, hcol]
  exact ⟨h1, by rw [h1]⟩

/-- Witness for C10: the distinct names a-b and a_b collide on the same link
path. -/
theorem claim10_witness :
    ("a-b" : String) ≠ "a_b" ∧
    replaceDashes "a-b" = replaceDashes "a_b" ∧
    pluginNameToBin "a-b" false = pluginNameToBin "a_b" false ∧
    filepathJoin2 "/krew/bin" (pluginNameToBin "a-b" false) =
      filepathJoin2 "/krew/bin" (pluginNameToBin "a_b" false) := by
  refine ⟨by decide, by decide, ?_, ?_⟩
  · exact (claim10_name_collision "a-b" "a_b" false "/krew/bin"
      (by decide) (by decide)).1
  · exact (claim10_name_collision "a-b" "a_b" false "/krew/bin"
      (by decide) (by decide)).2

end Krew
